import Mathlib

/-!
# Envelope-to-record decoding (`utils/transactions.go`)

A shallow embedding of the Go functions `getIdentity`, `decodeX509Pem`,
`ConvertEnvelopeToTXDetail`, `parseChaincodeEnvelope`,
`parseChaincodeInvocationSpec` and `parseChaincodeAction`, followed by theorems
about them.

Conventions of the embedding

* A Go byte slice is a `List Nat`; a Go `error` is `Option String` (`none` is
  the nil error); a Go pointer to a message is an `Option` (`none` is nil).
* A Go function with several results returns a tuple, exactly as in the source.
* A function that can dereference a nil pointer returns `Run`, whose second
  constructor is the run-time panic.
* The protobuf decoders, the PEM/X.509 parsers, the layer-by-layer JSON
  rendering and the two generated enumeration tables live outside
  `transactions.go`; they are the fields of `Externals` and every general
  theorem quantifies over them.
* `protolator.DeepMarshalJSON` is modelled as far as its known failures go: it
  rejects a payload type it cannot decode and a timestamp whose nanoseconds are
  out of range, and leaves everything else to the field `renderJSON`.
* `Log.Error` only writes to the log sink and is left out.
-/

namespace Exporter

/-! ## Go run-time conventions -/

/-- A Go byte slice. -/
abbrev Bytes := List Nat

/-- Result of running a Go function body: either it returns, or the goroutine
panics on a nil pointer dereference. -/
inductive Run (α : Type) where
  | ret (a : α)
  | panic
  deriving DecidableEq, Repr

/-- The function `errors.Wrap` of `github.com/pkg/errors`: it annotates a
non-nil error with a message and returns nil when the error is nil. -/
def errorsWrap (err : Option String) (message : String) : Option String :=
  match err with
  | none => none
  | some e => some (message ++ ": " ++ e)

/-- The function `errors.New`. -/
def errorsNew (message : String) : Option String := some message

/-- A Go `map[K]V` as an association list. -/
abbrev GoMap (κ ν : Type) := List (κ × ν)

/-- The one-result index expression `m[k]` on a `map[int32]string`: the stored
value, or the zero value of the element type (the empty string) when the key is
absent. -/
def GoMap.index (m : GoMap Int String) (k : Int) : String :=
  match m.lookup k with
  | some v => v
  | none => ""

/-- The two-result index expression `_, ok := m[k]`: whether the key is present. -/
def GoMap.has (m : GoMap String Bool) (k : String) : Bool :=
  (m.lookup k).isSome

/-- Conversion of a mathematical integer to Go's `int64` (two's complement
wrap-around, as for every Go signed integer operation). -/
def wrapInt64 (x : Int) : Int := (x + 2 ^ 63) % 2 ^ 64 - 2 ^ 63

/-- Conversion to Go's `int32`. -/
def wrapInt32 (x : Int) : Int := (x + 2 ^ 31) % 2 ^ 32 - 2 ^ 31

/-! ## Package `time` (standard library) -/

/-- The value `time.Time` without its location pointer: `wall` holds the
nanoseconds (and the monotonic flag in bit 63), `ext` the seconds since
January 1 of year 1. -/
structure Time where
  wall : Nat
  ext : Int
  deriving DecidableEq, Repr, Inhabited

/-- The constant `unixToInternal` of package `time`, in seconds. -/
def unixToInternal : Int := (1969 * 365 + 1969 / 4 - 1969 / 100 + 1969 / 400) * 86400

/-- The constant `internalToUnix` of package `time`. -/
def internalToUnix : Int := -unixToInternal

/-- The constant `wallToInternal` of package `time`, in seconds. -/
def wallToInternal : Int := (1884 * 365 + 1884 / 4 - 1884 / 100 + 1884 / 400) * 86400

/-- The function `unixTime(sec int64, nsec int32)` of package `time`:
`Time{uint64(nsec), sec + unixToInternal, Local}`. -/
def unixTime (sec nsec : Int) : Time :=
  { wall := (nsec % 2 ^ 64).toNat, ext := wrapInt64 (sec + unixToInternal) }

/-- The function `time.Unix(sec int64, nsec int64)`: a nanosecond count outside
`[0, 999999999]` is carried into the seconds; all arithmetic is `int64`. -/
def timeUnix (sec nsec : Int) : Time :=
  if nsec < 0 ∨ nsec ≥ 1000000000 then
    let n := Int.tdiv nsec 1000000000
    let sec1 := wrapInt64 (sec + n)
    let nsec1 := wrapInt64 (nsec - wrapInt64 (n * 1000000000))
    if nsec1 < 0 then
      unixTime (wrapInt64 (sec1 - 1)) (wrapInt32 (wrapInt64 (nsec1 + 1000000000)))
    else
      unixTime sec1 (wrapInt32 nsec1)
  else
    unixTime sec (wrapInt32 nsec)

/-- The method `(*Time).nsec`: `int32(t.wall & nsecMask)`, with `nsecMask = 1<<30 - 1`. -/
def Time.nsec (t : Time) : Int := ((t.wall % 2 ^ 30 : Nat) : Int)

/-- The method `(*Time).sec`: seconds since January 1 of year 1. -/
def Time.sec (t : Time) : Int :=
  if t.wall / 2 ^ 63 % 2 = 1 then
    wrapInt64 (wallToInternal + ((t.wall * 2 % 2 ^ 64 / 2 ^ 31 : Nat) : Int))
  else
    t.ext

/-- The method `Time.Unix`: seconds elapsed since January 1, 1970 UTC. -/
def Time.Unix (t : Time) : Int := wrapInt64 (t.sec + internalToUnix)

/-- The method `Time.Nanosecond`: the nanosecond offset within the second. -/
def Time.Nanosecond (t : Time) : Int := t.nsec

/-- The method `Time.Before`: `t` is before `u` on the time line. -/
def Time.Before (t u : Time) : Bool :=
  if t.wall / 2 ^ 63 % 2 = 1 ∧ u.wall / 2 ^ 63 % 2 = 1 then
    decide (t.ext < u.ext)
  else
    decide (t.sec < u.sec ∨ (t.sec = u.sec ∧ t.nsec < u.nsec))

/-- The place of a `Time` on the time line on which `Before`, `After` and
`Equal` compare, as an exact count of nanoseconds after the Unix epoch: the
stored seconds `t.sec()` less the `unixToInternal` seconds between year 1 and
1970, and the stored nanoseconds `t.nsec()`. No wrap-around is applied, so a
`Time` whose stored seconds have wrapped is seen where it really lies. -/
def Time.sinceEpochNanos (t : Time) : Int := (t.sec - unixToInternal) * 1000000000 + t.nsec

/-! ## Messages of `fabric-protos-go` (only the fields the code reads) -/

/-- Message `common.Envelope`. -/
structure Envelope where
  Payload : Bytes
  Signature : Bytes
  deriving DecidableEq, Repr, Inhabited

/-- Message `common.Header`. -/
structure Header where
  ChannelHeader : Bytes
  SignatureHeader : Bytes
  deriving DecidableEq, Repr, Inhabited

/-- Message `common.Payload`; `Header` is a pointer field. -/
structure Payload where
  Header : Option Header
  Data : Bytes
  deriving DecidableEq, Repr, Inhabited

/-- Message `timestamp.Timestamp`: `Seconds` is an `int64`, `Nanos` an `int32`. -/
structure Timestamp where
  Seconds : Int
  Nanos : Int
  deriving DecidableEq, Repr, Inhabited

/-- Message `common.ChannelHeader`; `Timestamp` is a pointer field. -/
structure ChannelHeader where
  Type_ : Int
  Version : Int
  Timestamp : Option Timestamp
  ChannelId : String
  TxId : String
  Epoch : Nat
  Extension : Bytes
  deriving DecidableEq, Repr, Inhabited

/-- Message `common.SignatureHeader`. -/
structure SignatureHeader where
  Creator : Bytes
  Nonce : Bytes
  deriving DecidableEq, Repr, Inhabited

/-- Message `msp.SerializedIdentity`. -/
structure SerializedIdentity where
  Mspid : String
  IdBytes : Bytes
  deriving DecidableEq, Repr, Inhabited

/-- The value `pem.Block`. -/
structure PemBlock where
  Type_ : String
  Bytes : Bytes
  deriving DecidableEq, Repr, Inhabited

/-- The value `pkix.Name`. -/
structure PkixName where
  CommonName : String
  deriving DecidableEq, Repr, Inhabited

/-- The value `x509.Certificate`. -/
structure Certificate where
  Subject : PkixName
  deriving DecidableEq, Repr, Inhabited

/-- Message `peer.ChaincodeID`. -/
structure ChaincodeID where
  Path : String
  Name : String
  Version : String
  deriving DecidableEq, Repr, Inhabited

/-- Message `peer.ChaincodeHeaderExtension`; `ChaincodeId` is a pointer field. -/
structure ChaincodeHeaderExtension where
  ChaincodeId : Option ChaincodeID
  deriving DecidableEq, Repr, Inhabited

/-- Message `peer.TransactionAction`. -/
structure TransactionAction where
  Header : Bytes
  Payload : Bytes
  deriving DecidableEq, Repr, Inhabited

/-- Message `peer.Transaction`. -/
structure PeerTransaction where
  Actions : List TransactionAction
  deriving DecidableEq, Repr, Inhabited

/-- Message `peer.Endorsement`. -/
structure Endorsement where
  Endorser : Bytes
  Signature : Bytes
  deriving DecidableEq, Repr, Inhabited

/-- Message `peer.ChaincodeEndorsedAction`. -/
structure ChaincodeEndorsedAction where
  ProposalResponsePayload : Bytes
  Endorsements : List Endorsement
  deriving DecidableEq, Repr, Inhabited

/-- Message `peer.ChaincodeActionPayload`; `Action` is a pointer field. -/
structure ChaincodeActionPayload where
  ChaincodeProposalPayload : Bytes
  Action : Option ChaincodeEndorsedAction
  deriving DecidableEq, Repr, Inhabited

/-- Message `peer.ChaincodeAction`. -/
structure ChaincodeAction where
  Results : Bytes
  Events : Bytes
  ChaincodeId : Option ChaincodeID
  deriving DecidableEq, Repr, Inhabited

/-- Message `peer.ChaincodeProposalPayload`. -/
structure ChaincodeProposalPayload where
  Input : Bytes
  deriving DecidableEq, Repr, Inhabited

/-- Message `peer.ChaincodeInput`. -/
structure ChaincodeInput where
  Args : List Bytes
  deriving DecidableEq, Repr, Inhabited

/-- Message `peer.ChaincodeSpec`; both fields are pointer fields. -/
structure ChaincodeSpec where
  ChaincodeId : Option ChaincodeID
  Input : Option ChaincodeInput
  deriving DecidableEq, Repr, Inhabited

/-- Message `peer.ChaincodeInvocationSpec`. -/
structure ChaincodeInvocationSpec where
  ChaincodeSpec : Option ChaincodeSpec
  deriving DecidableEq, Repr, Inhabited

/-- Message `rwset.NsReadWriteSet`. -/
structure NsReadWriteSet where
  Namespace : String
  Rwset : Bytes
  deriving DecidableEq, Repr, Inhabited

/-- Message `rwset.TxReadWriteSet`. -/
structure TxReadWriteSet where
  NsRwset : List NsReadWriteSet
  deriving DecidableEq, Repr, Inhabited

/-- Message `kvrwset.KVRead`. -/
structure KVRead where
  Key : String
  BlockNum : Nat
  TxNum : Nat
  deriving DecidableEq, Repr, Inhabited

/-- Message `kvrwset.KVWrite`. -/
structure KVWrite where
  Key : String
  IsDelete : Bool
  Value : Bytes
  deriving DecidableEq, Repr, Inhabited

/-- Message `kvrwset.KVRWSet`. -/
structure KVRWSet where
  Reads : List KVRead
  Writes : List KVWrite
  deriving DecidableEq, Repr, Inhabited

/-! ## What `transactions.go` calls and does not define -/

/-- The collaborators of `transactions.go`. The `Get...`/`Unmarshal...` helpers
of package `utils`, the wire decoders behind `proto.Unmarshal`, `pem.Decode`,
`x509.ParseCertificate`, the rendering of the decoded layers behind
`protolator.DeepMarshalJSON` (`renderJSON`), and the generated tables
`common.HeaderType_name` and `peer.TxValidationCode_name`. A helper that returns
`(message, error)` yields either a message or a non-nil error. -/
structure Externals where
  GetPayload : Envelope → Except String Payload
  UnmarshalChannelHeader : Bytes → Except String ChannelHeader
  GetSignatureHeader : Bytes → Except String SignatureHeader
  GetChaincodeHeaderExtension : Header → Except String ChaincodeHeaderExtension
  GetTransaction : Bytes → Except String PeerTransaction
  GetPayloads : TransactionAction → Except String (ChaincodeActionPayload × ChaincodeAction)
  GetChaincodeProposalPayload : Bytes → Except String ChaincodeProposalPayload
  decodeSerializedIdentity : Bytes → Except String SerializedIdentity
  decodeChaincodeInvocationSpec : Bytes → Except String ChaincodeInvocationSpec
  decodeTxReadWriteSet : Bytes → Except String TxReadWriteSet
  decodeKVRWSet : Bytes → Except String KVRWSet
  pemDecode : Bytes → Option PemBlock
  x509ParseCertificate : Bytes → Except String Certificate
  renderJSON : Envelope → Except String String
  HeaderType_name : GoMap Int String
  TxValidationCode_name : GoMap Int String

/-- The function `proto.Unmarshal(b, m)`: the message is reset, then the fields
found in `b` are merged in. A zero-length `b` holds no field, so the message
keeps its zero value and the error is nil; any other input goes to the wire
decoder of the message type. -/
def protoUnmarshal {α : Type} [Inhabited α] (decode : Bytes → Except String α)
    (b : Bytes) : Except String α :=
  match b with
  | [] => .ok default
  | _ :: _ => decode b

/-- The header type codes for which `protolator` knows the message type of
`Payload.data`: `MESSAGE`, `CONFIG`, `CONFIG_UPDATE`, `ENDORSER_TRANSACTION` and
`ORDERER_TRANSACTION`. -/
def protolatorPayloadTypes : List Int := [0, 1, 2, 3, 4]

/-- The function `protolator.DeepMarshalJSON` on an envelope, as far as its
failures are known. To render `Payload.data` it decodes the payload and the
channel header (the helpers of package `utils` are the plain unmarshalling, so
it reads the same messages) and fails on a missing header and on a type code
outside `protolatorPayloadTypes` (`decoding type N is unimplemented`); the
channel header is printed by `jsonpb`, which fails on a timestamp whose
nanoseconds are outside `[0, 10^9)` (`ns out of range`). Every other layer is
left to `renderJSON`, which may fail too. Only the fact of a failure is
modelled: the real messages also carry the type number and the field path. -/
def DeepMarshalJSON (X : Externals) (env : Envelope) : Except String String :=
  match X.GetPayload env with
  | .error err => .error err
  | .ok payload =>
    match payload.Header with
    | none => .error "cannot determine payload type when header is missing"
    | some header =>
      match X.UnmarshalChannelHeader header.ChannelHeader with
      | .error err => .error ("corrupt channel header: " ++ err)
      | .ok chdr =>
        if chdr.Type_ ∈ protolatorPayloadTypes then
          match chdr.Timestamp with
          | none => X.renderJSON env
          | some timestamp =>
            if timestamp.Nanos < 0 ∨ timestamp.Nanos ≥ 1000000000 then
              .error "ns out of range [0, 1000000000)"
            else
              X.renderJSON env
        else
          .error "decoding type is unimplemented"

/-! ## `transactions.go` -/

/-- The struct `cachedIdentity`; `cert` is a pointer. -/
structure cachedIdentity where
  mspID : String
  cert : Option Certificate
  deriving DecidableEq, Repr, Inhabited

/-- The function `decodeX509Pem`. -/
def decodeX509Pem (X : Externals) (certPem : Bytes) : Option Certificate × Option String :=
  match X.pemDecode certPem with
  | none => (none, errorsNew "error bad Certificate")
  | some block =>
    match X.x509ParseCertificate block.Bytes with
    | .ok cert => (some cert, none)
    | .error err => (none, some err)

/-- The function `getIdentity`. -/
def getIdentity (X : Externals) (serilizedIdentity : Bytes) :
    Option cachedIdentity × Option String :=
  match protoUnmarshal X.decodeSerializedIdentity serilizedIdentity with
  | .error err => (none, errorsWrap (some err) "error unmarshal SerializedIdentity")
  | .ok sid =>
    match decodeX509Pem X sid.IdBytes with
    | (_, some err) => (none, errorsWrap (some err) "error decodeX509Pem")
    | (cert, none) => (some { mspID := sid.Mspid, cert := cert }, none)

/-- The struct `Endorser`. -/
structure Endorser where
  MSP : String
  Name : String
  deriving DecidableEq, Repr, Inhabited

/-- The struct `RawValue`; `ChaincodeID` is a pointer. The Go conversion
`string(args[i])` keeps the bytes of the argument, so an input stays a byte
sequence here. -/
structure RawValue where
  ChaincodeID : Option ChaincodeID
  Input : List Bytes
  Reads : List KVRead
  Writes : List KVWrite
  deriving DecidableEq, Repr, Inhabited

/-- The struct `Transaction`; `Value` is a pointer. The derived default is the
Go zero value, which a composite literal leaves in every field it does not
name. -/
structure Transaction where
  ChannelName : String
  ID : String
  Type_ : String
  Creator : String
  CreatorMSP : String
  ChaincodeName : String
  ValidationResult : String
  BlockNumber : Nat
  CreatedAt : Time
  Endorsers : List Endorser
  Value : Option RawValue
  deriving DecidableEq, Repr, Inhabited

/-- The struct `TransactionDetail`: the embedded `*Transaction` and the rendered
payload. -/
structure TransactionDetail where
  Transaction : Transaction
  Payload : String
  deriving DecidableEq, Repr, Inhabited

/-- The function `parseChaincodeEnvelope`. After `GetTransaction` has succeeded
the variable `err` is nil, and it is this `err` that the empty-action branch
hands to `errors.Wrap`. -/
def parseChaincodeEnvelope (X : Externals) (env : Envelope) :
    Run (Option ChaincodeProposalPayload × List Endorsement × Option ChaincodeAction
      × Option String) :=
  match X.GetPayload env with
  | .error err => .ret (none, [], none, errorsWrap (some err) "unexpected error from GetPayload")
  | .ok payl =>
    match X.GetTransaction payl.Data with
    | .error err =>
      .ret (none, [], none, errorsWrap (some err) "unexpected error from GetTransaction")
    | .ok tx =>
      match tx.Actions with
      | [] =>
        .ret (none, [], none, errorsWrap none "at least one TransactionAction is required")
      | action0 :: _ =>
        match X.GetPayloads action0 with
        | .error err =>
          .ret (none, [], none, errorsWrap (some err) "unexpected error from GetPayloads")
        | .ok (actionPayload, chaincodeAction) =>
          match X.GetChaincodeProposalPayload actionPayload.ChaincodeProposalPayload with
          | .error err =>
            .ret (none, [], none,
              errorsWrap (some err) "unexpected error from GetChaincodeProposalPayload")
          | .ok chaincodeProposalPayload =>
            match actionPayload.Action with
            | none => .panic
            | some action =>
              .ret (some chaincodeProposalPayload, action.Endorsements, some chaincodeAction,
                none)

/-- The function `parseChaincodeInvocationSpec`; the getters are nil-safe. -/
def parseChaincodeInvocationSpec (cis : ChaincodeInvocationSpec) : RawValue :=
  let chaincodeID := match cis.ChaincodeSpec with
    | some spec => spec.ChaincodeId
    | none => none
  let args : List Bytes := match cis.ChaincodeSpec with
    | some spec => (match spec.Input with
      | some input => input.Args
      | none => [])
    | none => []
  { ChaincodeID := chaincodeID, Input := args.map (fun arg => arg), Reads := [], Writes := [] }

/-- The function `parseChaincodeAction`; `action.GetResults()` is nil-safe. The
`range` loop over `txRWSet.NsRwset` overwrites `kvRwSetByte` at every entry
whose namespace is `chaincodename`. -/
def parseChaincodeAction (X : Externals) (action : Option ChaincodeAction)
    (chaincodename : String) : List KVRead × List KVWrite × Option String :=
  let resultBytes : Bytes := match action with
    | some a => a.Results
    | none => []
  match protoUnmarshal X.decodeTxReadWriteSet resultBytes with
  | .error err =>
    ([], [], errorsWrap (some err) "unexpected error from unmarshal TxReadWriteSet")
  | .ok txRWSet =>
    let kvRwSetByte : Bytes := txRWSet.NsRwset.foldl
      (fun kvRwSetByte rwset =>
        if rwset.Namespace = chaincodename then rwset.Rwset else kvRwSetByte) []
    match protoUnmarshal X.decodeKVRWSet kvRwSetByte with
    | .error err => ([], [], errorsWrap (some err) "unexpected error from unmarshal KVRWSet")
    | .ok kvRWSet => (kvRWSet.Reads, kvRWSet.Writes, none)

/-- The loop `for _, e := range endorsements` of `ConvertEnvelopeToTXDetail`,
started on the remaining endorsements with the current `tx.Endorsers`. The
result is the final `tx.Endorsers` with a nil error, or the error with which
the function returns from inside the loop. The map `distinctEndorser` is only
read: the source has no assignment into it. -/
def endorsersLoop (X : Externals) (distinctEndorser : GoMap String Bool) :
    List Endorsement → List Endorser → Run (List Endorser × Option String)
  | [], endorsers => .ret (endorsers, none)
  | e :: rest, endorsers =>
    match getIdentity X e.Endorser with
    | (_, some err) => .ret (endorsers, some err)
    | (none, none) => .panic
    | (some identity, none) =>
      let userName := match identity.cert with
        | some cert => cert.Subject.CommonName
        | none => ""
      if GoMap.has distinctEndorser (identity.mspID ++ ":" ++ userName) then
        endorsersLoop X distinctEndorser rest endorsers
      else
        endorsersLoop X distinctEndorser rest
          (endorsers ++ [{ MSP := identity.mspID, Name := userName }])

/-- The function `ConvertEnvelopeToTXDetail`. The record `tx` of the source is
threaded through as `tx0` .. `tx4`, one name per assignment to it; a guarded
assignment `if p != nil { tx.F = v }` keeps the old `tx.F` when `p` is nil. -/
def ConvertEnvelopeToTXDetail (X : Externals) (txFlag : Int) (env : Envelope) :
    Run (Option TransactionDetail × Option String) :=
  match X.GetPayload env with
  | .error err => .ret (none, errorsWrap (some err) "unexpected error from unmarshal envelope")
  | .ok payload =>
  match payload.Header with
  | none => .panic
  | some header =>
  match X.UnmarshalChannelHeader header.ChannelHeader with
  | .error err =>
    .ret (none, errorsWrap (some err) "unexpected error from unmarshal channel header")
  | .ok chdr =>
  match X.GetSignatureHeader header.SignatureHeader with
  | .error err =>
    .ret (none, errorsWrap (some err) "unexpected error from unmarshal signature header")
  | .ok shdr =>
  match getIdentity X shdr.Creator with
  | (_, some err) => .ret (none, errorsWrap (some err) "error getIdentity")
  | (none, none) => .panic
  | (some identity, none) =>
  match chdr.Timestamp with
  | none => .panic
  | some timestamp =>
  let tx0 : Transaction :=
    { (default : Transaction) with
      ID := chdr.TxId
      Type_ := GoMap.index X.HeaderType_name chdr.Type_
      CreatorMSP := identity.mspID
      ValidationResult := GoMap.index X.TxValidationCode_name txFlag
      CreatedAt := timeUnix timestamp.Seconds timestamp.Nanos }
  let tx1 : Transaction :=
    { tx0 with
      Creator := match identity.cert with
        | some cert => cert.Subject.CommonName
        | none => tx0.Creator }
  match X.GetChaincodeHeaderExtension header with
  | .error err =>
    .ret (none, errorsWrap (some err) "unexpected error from GetChaincodeHeaderExtension")
  | .ok hdrExt =>
  let tx2 : Transaction :=
    { tx1 with
      ChaincodeName := match hdrExt.ChaincodeId with
        | some chaincodeId => chaincodeId.Name
        | none => tx1.ChaincodeName }
  match parseChaincodeEnvelope X env with
  | .panic => .panic
  | .ret (_, _, _, some err) =>
    .ret (none, errorsWrap (some err) "unexpected error from parseChaincodeEnvelope")
  | .ret (chaincodeProposalPayload, endorsements, chaincodeAction, none) =>
  match endorsersLoop X [] endorsements tx2.Endorsers with
  | .panic => .panic
  | .ret (_, some err) => .ret (none, some err)
  | .ret (endorsers, none) =>
  let tx3 : Transaction := { tx2 with Endorsers := endorsers }
  match chaincodeProposalPayload with
  | none => .panic
  | some proposalPayload =>
  match protoUnmarshal X.decodeChaincodeInvocationSpec proposalPayload.Input with
  | .error err =>
    .ret (none, errorsWrap (some err) "unexpected error from unmarshal ChaincodeInvocationSpec")
  | .ok cis =>
  let value := parseChaincodeInvocationSpec cis
  match parseChaincodeAction X chaincodeAction tx3.ChaincodeName with
  | (_, _, some err) =>
    .ret (none, errorsWrap (some err) "Unexpected error from parse ChaincodeAction")
  | (reads, writes, none) =>
  let tx4 : Transaction := { tx3 with Value := some { value with Reads := reads, Writes := writes } }
  match DeepMarshalJSON X env with
  | .error err =>
    .ret (none, errorsWrap (some err) "unexpected error from unmarshal ConfigEnvelope")
  | .ok rendered => .ret (some { Transaction := tx4, Payload := rendered }, none)

/-! ## A concrete instance of the collaborators

A small table-driven stand-in for the wire formats, used to evaluate the
functions above on concrete envelopes. An envelope payload is the one-byte
string `[v]`; the byte `v` selects one of eight transactions, which all share
the channel `mychannel`, the creator `User1@org1.example.com` of `Org1MSP` and
the chaincode `basic`:

* `1` one action endorsed by `peer0.org1`, `peer0.org1` again, and `peer0.org2`;
* `2` a transaction with no action;
* `3` one action whose second endorser carries identity bytes that are no PEM block;
* `4` as `1` with an empty transaction id;
* `5` as `1` without the timestamp sub-message;
* `6` as `1` with timestamp seconds `2^63 - 1` and nanos `0`;
* `7` as `1` followed by a second action with an undecodable payload, on which
  the rendering fails;
* `8` as `1` with the header type code `42`, whose payload the rendering cannot
  decode.
-/

/-- The chaincode id of the sample transactions. -/
def sampleChaincodeID : ChaincodeID := { Path := "", Name := "basic", Version := "1.0" }

/-- Sample decoder of `common.Payload`. -/
def sampleGetPayload (env : Envelope) : Except String Payload :=
  match env.Payload with
  | [v] =>
    if 1 ≤ v ∧ v ≤ 8 then .ok { Header := some ⟨[v, 1], [v, 2]⟩, Data := [v, 3] }
    else .error "error unmarshaling Payload"
  | _ => .error "error unmarshaling Payload"

/-- Sample decoder of `common.ChannelHeader`. -/
def sampleUnmarshalChannelHeader (b : Bytes) : Except String ChannelHeader :=
  match b with
  | [v, 1] =>
    .ok { Type_ := if v = 8 then 42 else 3
          Version := 0
          Timestamp :=
            if v = 5 then none
            else if v = 6 then some ⟨9223372036854775807, 0⟩
            else some ⟨1625097600, 500000000⟩
          ChannelId := "mychannel"
          TxId := if v = 4 then "" else "tx1"
          Epoch := 0
          Extension := [v, 4] }
  | _ => .error "error unmarshaling ChannelHeader"

/-- Sample decoder of `common.SignatureHeader`. -/
def sampleGetSignatureHeader (b : Bytes) : Except String SignatureHeader :=
  match b with
  | [_, 2] => .ok { Creator := [85], Nonce := [] }
  | _ => .error "error unmarshaling SignatureHeader"

/-- Sample decoder of the chaincode header extension. -/
def sampleGetChaincodeHeaderExtension (hdr : Header) : Except String ChaincodeHeaderExtension :=
  match hdr.ChannelHeader with
  | [_, 1] => .ok { ChaincodeId := some sampleChaincodeID }
  | _ => .error "error unmarshaling ChaincodeHeaderExtension"

/-- Sample decoder of `peer.Transaction`. -/
def sampleGetTransaction (b : Bytes) : Except String PeerTransaction :=
  match b with
  | [v, 3] =>
    .ok { Actions :=
            if v = 2 then []
            else if v = 3 then [⟨[], [3, 5]⟩]
            else if v = 7 then [⟨[], [1, 5]⟩, ⟨[], [9, 9]⟩]
            else [⟨[], [1, 5]⟩] }
  | _ => .error "error unmarshaling Transaction"

/-- Sample decoder of a transaction action. -/
def sampleGetPayloads (action : TransactionAction) :
    Except String (ChaincodeActionPayload × ChaincodeAction) :=
  match action.Payload with
  | [w, 5] =>
    .ok ({ ChaincodeProposalPayload := [1, 6]
           Action := some
             { ProposalResponsePayload := [1, 7]
               Endorsements :=
                 if w = 3 then [⟨[65], []⟩, ⟨[67], []⟩]
                 else [⟨[65], []⟩, ⟨[65], []⟩, ⟨[66], []⟩] } },
         { Results := [1, 8], Events := [], ChaincodeId := some sampleChaincodeID })
  | _ => .error "error unmarshaling ChaincodeActionPayload"

/-- Sample decoder of `peer.ChaincodeProposalPayload`. -/
def sampleGetChaincodeProposalPayload (b : Bytes) : Except String ChaincodeProposalPayload :=
  match b with
  | [1, 6] => .ok { Input := [1, 9] }
  | _ => .error "error unmarshaling ChaincodeProposalPayload"

/-- Sample decoder of `msp.SerializedIdentity`. -/
def sampleDecodeSerializedIdentity (b : Bytes) : Except String SerializedIdentity :=
  match b with
  | [65] => .ok { Mspid := "Org1MSP", IdBytes := [65, 1] }
  | [66] => .ok { Mspid := "Org2MSP", IdBytes := [66, 1] }
  | [67] => .ok { Mspid := "Org3MSP", IdBytes := [67, 1] }
  | [85] => .ok { Mspid := "Org1MSP", IdBytes := [85, 1] }
  | _ => .error "proto: cannot parse invalid wire-format data"

/-- Sample `pem.Decode`. -/
def samplePemDecode (b : Bytes) : Option PemBlock :=
  match b with
  | [65, 1] => some { Type_ := "CERTIFICATE", Bytes := [65, 2] }
  | [66, 1] => some { Type_ := "CERTIFICATE", Bytes := [66, 2] }
  | [85, 1] => some { Type_ := "CERTIFICATE", Bytes := [85, 2] }
  | _ => none

/-- Sample `x509.ParseCertificate`. -/
def sampleParseCertificate (b : Bytes) : Except String Certificate :=
  match b with
  | [65, 2] => .ok { Subject := { CommonName := "peer0.org1.example.com" } }
  | [66, 2] => .ok { Subject := { CommonName := "peer0.org2.example.com" } }
  | [85, 2] => .ok { Subject := { CommonName := "User1@org1.example.com" } }
  | _ => .error "x509: malformed certificate"

/-- Sample decoder of `peer.ChaincodeInvocationSpec`. -/
def sampleDecodeChaincodeInvocationSpec (b : Bytes) : Except String ChaincodeInvocationSpec :=
  match b with
  | [1, 9] =>
    .ok { ChaincodeSpec := some
            { ChaincodeId := some sampleChaincodeID
              Input := some { Args := [[112, 117, 116], [107], [118]] } } }
  | _ => .error "proto: cannot parse invalid wire-format data"

/-- Sample decoder of `rwset.TxReadWriteSet`. -/
def sampleDecodeTxReadWriteSet (b : Bytes) : Except String TxReadWriteSet :=
  match b with
  | [1, 8] => .ok { NsRwset := [⟨"_lifecycle", [1, 10]⟩, ⟨"basic", [1, 11]⟩] }
  | _ => .error "proto: cannot parse invalid wire-format data"

/-- Sample decoder of `kvrwset.KVRWSet`. -/
def sampleDecodeKVRWSet (b : Bytes) : Except String KVRWSet :=
  match b with
  | [1, 10] => .ok { Reads := [⟨"namespaces/fields/basic/Sequence", 1, 0⟩], Writes := [] }
  | [1, 11] => .ok { Reads := [⟨"k", 2, 0⟩], Writes := [⟨"k", false, [118]⟩] }
  | _ => .error "proto: cannot parse invalid wire-format data"

/-- Sample rendering of the layers: it fails on the envelope whose second
action does not decode. -/
def sampleRenderJSON (env : Envelope) : Except String String :=
  match env.Payload with
  | [7] => .error "error unmarshaling ChaincodeActionPayload"
  | _ => .ok "envelope-tree"

/-- The table `common.HeaderType_name` as generated in `fabric-protos-go`. -/
def sampleHeaderTypeName : GoMap Int String :=
  [(0, "MESSAGE"), (1, "CONFIG"), (2, "CONFIG_UPDATE"), (3, "ENDORSER_TRANSACTION"),
   (4, "ORDERER_TRANSACTION"), (5, "DELIVER_SEEK_INFO"), (6, "CHAINCODE_PACKAGE")]

/-- The table `peer.TxValidationCode_name` as generated in `fabric-protos-go`. -/
def sampleTxValidationCodeName : GoMap Int String :=
  [(0, "VALID"), (1, "NIL_ENVELOPE"), (2, "BAD_PAYLOAD"), (3, "BAD_COMMON_HEADER"),
   (4, "BAD_CREATOR_SIGNATURE"), (5, "INVALID_ENDORSER_TRANSACTION"),
   (6, "INVALID_CONFIG_TRANSACTION"), (7, "UNSUPPORTED_TX_PAYLOAD"), (8, "BAD_PROPOSAL_TXID"),
   (9, "DUPLICATE_TXID"), (10, "ENDORSEMENT_POLICY_FAILURE"), (11, "MVCC_READ_CONFLICT"),
   (12, "PHANTOM_READ_CONFLICT"), (13, "UNKNOWN_TX_TYPE"), (14, "TARGET_CHAIN_NOT_FOUND"),
   (15, "MARSHAL_TX_ERROR"), (16, "NIL_TXACTION"), (17, "EXPIRED_CHAINCODE"),
   (18, "CHAINCODE_VERSION_CONFLICT"), (19, "BAD_HEADER_EXTENSION"), (20, "BAD_CHANNEL_HEADER"),
   (21, "BAD_RESPONSE_PAYLOAD"), (22, "BAD_RWSET"), (23, "ILLEGAL_WRITESET"),
   (24, "INVALID_WRITESET"), (25, "INVALID_CHAINCODE"), (254, "NOT_VALIDATED"),
   (255, "INVALID_OTHER_REASON")]

/-- The sample collaborators. -/
def sampleX : Externals where
  GetPayload := sampleGetPayload
  UnmarshalChannelHeader := sampleUnmarshalChannelHeader
  GetSignatureHeader := sampleGetSignatureHeader
  GetChaincodeHeaderExtension := sampleGetChaincodeHeaderExtension
  GetTransaction := sampleGetTransaction
  GetPayloads := sampleGetPayloads
  GetChaincodeProposalPayload := sampleGetChaincodeProposalPayload
  decodeSerializedIdentity := sampleDecodeSerializedIdentity
  decodeChaincodeInvocationSpec := sampleDecodeChaincodeInvocationSpec
  decodeTxReadWriteSet := sampleDecodeTxReadWriteSet
  decodeKVRWSet := sampleDecodeKVRWSet
  pemDecode := samplePemDecode
  x509ParseCertificate := sampleParseCertificate
  renderJSON := sampleRenderJSON
  HeaderType_name := sampleHeaderTypeName
  TxValidationCode_name := sampleTxValidationCodeName

/-- The sample envelope number `v`. -/
def sampleEnvelope (v : Nat) : Envelope := { Payload := [v], Signature := [] }

/-- The `Endorser` entry the loop appends for an endorsement whose identity
resolves: the MSP identifier and the certificate's common name. -/
def endorserOf (X : Externals) (e : Endorsement) : Endorser :=
  match getIdentity X e.Endorser with
  | (some identity, _) =>
    { MSP := identity.mspID
      Name := match identity.cert with
        | some cert => cert.Subject.CommonName
        | none => "" }
  | (none, _) => default

/-- The record that `ConvertEnvelopeToTXDetail` returns for the sample
envelopes with one decodable first action, up to the four fields in which
those envelopes differ. -/
def sampleDetail (ID Type_ ValidationResult : String) (CreatedAt : Time) : TransactionDetail :=
  { Transaction :=
      { ChannelName := ""
        ID := ID
        Type_ := Type_
        Creator := "User1@org1.example.com"
        CreatorMSP := "Org1MSP"
        ChaincodeName := "basic"
        ValidationResult := ValidationResult
        BlockNumber := 0
        CreatedAt := CreatedAt
        Endorsers :=
          [⟨"Org1MSP", "peer0.org1.example.com"⟩, ⟨"Org1MSP", "peer0.org1.example.com"⟩,
           ⟨"Org2MSP", "peer0.org2.example.com"⟩]
        Value := some
          { ChaincodeID := some sampleChaincodeID
            Input := [[112, 117, 116], [107], [118]]
            Reads := [⟨"k", 2, 0⟩]
            Writes := [⟨"k", false, [118]⟩] } }
    Payload := "envelope-tree" }

/-! ## Auxiliary facts -/

/-- A successful run of `ConvertEnvelopeToTXDetail` went through every stage,
and the record it returns holds what the stages produced. -/
theorem convert_success_trace {X : Externals} {txFlag : Int} {env : Envelope}
    {td : TransactionDetail} {e : Option String}
    (h : ConvertEnvelopeToTXDetail X txFlag env = .ret (some td, e)) :
    e = none ∧
    ∃ (payload : Payload) (header : Header) (chdr : ChannelHeader) (shdr : SignatureHeader)
      (identity : cachedIdentity) (timestamp : Timestamp)
      (proposalPayload : ChaincodeProposalPayload) (endorsements : List Endorsement)
      (chaincodeAction : Option ChaincodeAction) (hdrExt : ChaincodeHeaderExtension)
      (cis : ChaincodeInvocationSpec) (reads : List KVRead) (writes : List KVWrite)
      (rendered : String),
      X.GetPayload env = .ok payload ∧
      payload.Header = some header ∧
      X.UnmarshalChannelHeader header.ChannelHeader = .ok chdr ∧
      X.GetSignatureHeader header.SignatureHeader = .ok shdr ∧
      getIdentity X shdr.Creator = (some identity, none) ∧
      chdr.Timestamp = some timestamp ∧
      parseChaincodeEnvelope X env
        = .ret (some proposalPayload, endorsements, chaincodeAction, none) ∧
      endorsersLoop X [] endorsements [] = .ret (td.Transaction.Endorsers, none) ∧
      td.Transaction.ChannelName = "" ∧
      td.Transaction.ID = chdr.TxId ∧
      td.Transaction.Type_ = GoMap.index X.HeaderType_name chdr.Type_ ∧
      td.Transaction.ValidationResult = GoMap.index X.TxValidationCode_name txFlag ∧
      td.Transaction.CreatedAt = timeUnix timestamp.Seconds timestamp.Nanos ∧
      X.GetChaincodeHeaderExtension header = .ok hdrExt ∧
      protoUnmarshal X.decodeChaincodeInvocationSpec proposalPayload.Input = .ok cis ∧
      parseChaincodeAction X chaincodeAction
        (match hdrExt.ChaincodeId with
          | some chaincodeId => chaincodeId.Name
          | none => "") = (reads, writes, none) ∧
      DeepMarshalJSON X env = .ok rendered ∧
      td.Transaction.ChaincodeName
        = (match hdrExt.ChaincodeId with
          | some chaincodeId => chaincodeId.Name
          | none => "") ∧
      td.Transaction.Value
        = some { parseChaincodeInvocationSpec cis with Reads := reads, Writes := writes } ∧
      td.Payload = rendered := by
  unfold ConvertEnvelopeToTXDetail at h
  rcases hPayload : X.GetPayload env with err | payload
  · simp [hPayload] at h
  simp only [hPayload] at h
  rcases hHeader : payload.Header with _ | header
  · simp [hHeader] at h
  simp only [hHeader] at h
  rcases hChdr : X.UnmarshalChannelHeader header.ChannelHeader with err | chdr
  · simp [hChdr] at h
  simp only [hChdr] at h
  rcases hShdr : X.GetSignatureHeader header.SignatureHeader with err | shdr
  · simp [hShdr] at h
  simp only [hShdr] at h
  rcases hIdentity : getIdentity X shdr.Creator with ⟨_ | identity, _ | err⟩
  · simp [hIdentity] at h
  · simp [hIdentity] at h
  swap
  · simp [hIdentity] at h
  simp only [hIdentity] at h
  rcases hTimestamp : chdr.Timestamp with _ | timestamp
  · simp [hTimestamp] at h
  simp only [hTimestamp] at h
  rcases hHdrExt : X.GetChaincodeHeaderExtension header with err | hdrExt
  · simp [hHdrExt] at h
  simp only [hHdrExt] at h
  rcases hParse : parseChaincodeEnvelope X env with ⟨cpp, endorsements, chaincodeAction, _ | err⟩ | _
  rotate_left
  · simp [hParse] at h
  · simp [hParse] at h
  simp only [hParse] at h
  rcases hLoop : endorsersLoop X [] endorsements (default : Transaction).Endorsers
    with ⟨endorsers, _ | err⟩ | _
  rotate_left
  · simp [hLoop] at h
  · simp [hLoop] at h
  simp only [hLoop] at h
  rcases cpp with _ | proposalPayload
  · simp at h
  simp only at h
  rcases hCis : protoUnmarshal X.decodeChaincodeInvocationSpec proposalPayload.Input
    with err | cis
  · simp [hCis] at h
  simp only [hCis] at h
  rcases hAction : parseChaincodeAction X chaincodeAction
    (match hdrExt.ChaincodeId with
      | some chaincodeId => chaincodeId.Name
      | none => (default : Transaction).ChaincodeName) with ⟨reads, writes, _ | err⟩
  swap
  · simp [hAction] at h
  simp only [hAction] at h
  rcases hJSON : DeepMarshalJSON X env with err | rendered
  · simp [hJSON] at h
  simp only [hJSON, Run.ret.injEq, Prod.mk.injEq, Option.some.injEq] at h
  obtain ⟨rfl, rfl⟩ := h
  exact ⟨rfl, payload, header, chdr, shdr, identity, timestamp, proposalPayload, endorsements,
    chaincodeAction, hdrExt, cis, reads, writes, rendered, rfl, hHeader, hChdr, hShdr,
    hIdentity, hTimestamp, rfl, hLoop, rfl, rfl, rfl, rfl, rfl, hHdrExt, hCis, hAction, rfl,
    rfl, rfl, rfl⟩

/-- Wrapping is compatible with addition. -/
theorem wrapInt64_wrap_add (x c : Int) : wrapInt64 (wrapInt64 x + c) = wrapInt64 (x + c) := by
  unfold wrapInt64
  omega

/-- A value in the `int64` range is unchanged by wrapping. -/
theorem wrapInt64_of_range (x : Int) (h1 : -2 ^ 63 ≤ x) (h2 : x < 2 ^ 63) :
    wrapInt64 x = x := by
  unfold wrapInt64
  omega

/-- The number of seconds between January 1 of year 1 and the Unix epoch. -/
theorem unixToInternal_eq : unixToInternal = 62135596800 := by decide

/-- What the accessors read from `unixTime s ns` for a nanosecond count in
range. -/
theorem unixTime_fields (s ns : Int) (h0 : 0 ≤ ns) (h1 : ns < 1000000000) :
    (unixTime s ns).sec = wrapInt64 (s + unixToInternal) ∧
    (unixTime s ns).nsec = ns ∧
    (unixTime s ns).Unix = wrapInt64 s ∧
    (unixTime s ns).Nanosecond = ns := by
  have hw : (unixTime s ns).wall = ns.toNat := by
    unfold unixTime
    simp only
    congr 1
    omega
  have hsec : (unixTime s ns).sec = wrapInt64 (s + unixToInternal) := by
    unfold Time.sec
    rw [hw]
    have hflag : ¬ (ns.toNat / 2 ^ 63 % 2 = 1) := by omega
    rw [if_neg hflag]
    rfl
  have hnsec : (unixTime s ns).nsec = ns := by
    unfold Time.nsec
    rw [hw]
    omega
  refine ⟨hsec, hnsec, ?_, hnsec⟩
  unfold Time.Unix
  rw [hsec, wrapInt64_wrap_add]
  unfold internalToUnix
  congr 1
  omega

/-- For a nanosecond count in range `time.Unix` carries nothing. -/
theorem timeUnix_in_range (sec nsec : Int) (h0 : 0 ≤ nsec) (h1 : nsec < 1000000000) :
    timeUnix sec nsec = unixTime sec nsec := by
  unfold timeUnix
  have h32 : wrapInt32 nsec = nsec := by unfold wrapInt32; omega
  rw [if_neg (by omega), h32]

/-- The place on the time line of `time.Unix(sec, nsec)` for a nanosecond count
in range, when the seconds since year 1 fit an `int64`. -/
theorem timeUnix_sinceEpochNanos (sec nsec : Int) (h0 : 0 ≤ nsec) (h1 : nsec < 1000000000)
    (hlo : -2 ^ 63 ≤ sec) (hhi : sec + 62135596800 < 2 ^ 63) :
    (timeUnix sec nsec).sinceEpochNanos = sec * 1000000000 + nsec := by
  obtain ⟨hsec, hnsec, _, _⟩ := unixTime_fields sec nsec h0 h1
  rw [timeUnix_in_range sec nsec h0 h1]
  unfold Time.sinceEpochNanos
  rw [hsec, hnsec, unixToInternal_eq, wrapInt64_of_range _ (by omega) (by omega)]
  ring

/-- A rendering that succeeds has seen a payload type it can decode and, when
the channel header has a timestamp, nanoseconds in range. -/
theorem DeepMarshalJSON_ok {X : Externals} {env : Envelope} {rendered : String}
    {payload : Payload} {header : Header} {chdr : ChannelHeader}
    (h : DeepMarshalJSON X env = .ok rendered)
    (hPayload : X.GetPayload env = .ok payload) (hHeader : payload.Header = some header)
    (hChdr : X.UnmarshalChannelHeader header.ChannelHeader = .ok chdr) :
    chdr.Type_ ∈ protolatorPayloadTypes ∧
    ∀ timestamp, chdr.Timestamp = some timestamp →
      0 ≤ timestamp.Nanos ∧ timestamp.Nanos < 1000000000 := by
  unfold DeepMarshalJSON at h
  simp only [hPayload, hHeader, hChdr] at h
  by_cases hType : chdr.Type_ ∈ protolatorPayloadTypes
  · refine ⟨hType, ?_⟩
    intro timestamp hTimestamp
    rw [if_pos hType] at h
    simp only [hTimestamp] at h
    by_cases hNanos : timestamp.Nanos < 0 ∨ timestamp.Nanos ≥ 1000000000
    · rw [if_pos hNanos] at h
      simp at h
    · omega
  · rw [if_neg hType] at h
    simp at h

/-- The function `getIdentity` never returns a nil identity with a nil error. -/
theorem getIdentity_not_nil_nil (X : Externals) (b : Bytes) :
    getIdentity X b ≠ (none, none) := by
  unfold getIdentity
  split
  · simp [errorsWrap]
  · split <;> simp [errorsWrap]

/-- A certificate that is missing or does not parse makes `getIdentity` fail,
also when the wrapping `SerializedIdentity` decodes. -/
theorem getIdentity_certificate_error {X : Externals} {b : Bytes} {sid : SerializedIdentity}
    {err : String} (hsid : protoUnmarshal X.decodeSerializedIdentity b = .ok sid)
    (hcert : (decodeX509Pem X sid.IdBytes).2 = some err) :
    getIdentity X b = (none, some ("error decodeX509Pem: " ++ err)) := by
  unfold getIdentity
  rw [hsid]
  rcases hd : decodeX509Pem X sid.IdBytes with ⟨cert, _ | e⟩
  · rw [hd] at hcert
    simp at hcert
  · rw [hd] at hcert
    simp only [Option.some.injEq] at hcert
    subst hcert
    simp [errorsWrap, hd]

/-- The endorser loop returns with an error as soon as one endorsement's
identity does not resolve, whatever the map holds. -/
theorem endorsersLoop_error {X : Externals} {m : GoMap String Bool} :
    ∀ (es : List Endorsement) (acc : List Endorser) (e : Endorsement) (err : String),
      e ∈ es → (getIdentity X e.Endorser).2 = some err →
      ∃ r err1, endorsersLoop X m es acc = .ret (r, some err1) := by
  intro es
  induction es with
  | nil => intro acc e err he; simp at he
  | cons e1 rest ih =>
    intro acc e err he herr
    unfold endorsersLoop
    rcases hid : getIdentity X e1.Endorser with ⟨_ | identity, _ | err1⟩
    · exact absurd hid (getIdentity_not_nil_nil X _)
    · exact ⟨acc, err1, rfl⟩
    · have hne : e ≠ e1 := by
        rintro rfl
        rw [hid] at herr
        simp at herr
      have hmem : e ∈ rest := by
        rcases List.mem_cons.mp he with h | h
        · exact absurd h hne
        · exact h
      simp only
      split
      · exact ih _ e err hmem herr
      · exact ih _ e err hmem herr
    · exact ⟨acc, err1, rfl⟩

/-- With the map left empty, a loop that runs to the end has appended one entry
for every endorsement, in order. -/
theorem endorsersLoop_success {X : Externals} :
    ∀ (es : List Endorsement) (acc r : List Endorser),
      endorsersLoop X [] es acc = .ret (r, none) → r = acc ++ es.map (endorserOf X) := by
  intro es
  induction es with
  | nil =>
    intro acc r h
    simp [endorsersLoop] at h
    simp [h]
  | cons e1 rest ih =>
    intro acc r h
    unfold endorsersLoop at h
    rcases hid : getIdentity X e1.Endorser with ⟨_ | identity, _ | err1⟩
    · simp [hid] at h
    · simp [hid] at h
    · simp only [hid, GoMap.has, List.lookup, Option.isSome_none, Bool.false_eq_true,
        if_false] at h
      have h2 := ih _ _ h
      rw [h2]
      simp [endorserOf, hid]
    · simp [hid] at h

/-- With the header stages passed and a transaction without actions,
`parseChaincodeEnvelope` reports a nil error. -/
theorem parseChaincodeEnvelope_zero_actions {X : Externals} {env : Envelope} {payl : Payload}
    {tx : PeerTransaction} (hPayload : X.GetPayload env = .ok payl)
    (hTx : X.GetTransaction payl.Data = .ok tx) (hActions : tx.Actions = []) :
    parseChaincodeEnvelope X env = .ret (none, [], none, none) := by
  unfold parseChaincodeEnvelope
  simp only [hPayload, hTx, hActions, errorsWrap]

/-- With the header stages passed and a transaction without actions,
`ConvertEnvelopeToTXDetail` dereferences the nil proposal payload. -/
theorem convert_zero_actions_panics {X : Externals} {txFlag : Int} {env : Envelope}
    {payload : Payload} {header : Header} {chdr : ChannelHeader} {shdr : SignatureHeader}
    {identity : cachedIdentity} {timestamp : Timestamp} {hdrExt : ChaincodeHeaderExtension}
    {tx : PeerTransaction}
    (hPayload : X.GetPayload env = .ok payload) (hHeader : payload.Header = some header)
    (hChdr : X.UnmarshalChannelHeader header.ChannelHeader = .ok chdr)
    (hShdr : X.GetSignatureHeader header.SignatureHeader = .ok shdr)
    (hIdentity : getIdentity X shdr.Creator = (some identity, none))
    (hTimestamp : chdr.Timestamp = some timestamp)
    (hHdrExt : X.GetChaincodeHeaderExtension header = .ok hdrExt)
    (hTx : X.GetTransaction payload.Data = .ok tx) (hActions : tx.Actions = []) :
    ConvertEnvelopeToTXDetail X txFlag env = .panic := by
  unfold ConvertEnvelopeToTXDetail
  simp only [hPayload, hHeader, hChdr, hShdr, hIdentity, hTimestamp, hHdrExt,
    parseChaincodeEnvelope_zero_actions hPayload hTx hActions, endorsersLoop]

/-- With payload, channel header and signature header decoded and the creator
resolved, a channel header without timestamp makes `ConvertEnvelopeToTXDetail`
panic. -/
theorem convert_missing_timestamp_panics {X : Externals} {txFlag : Int} {env : Envelope}
    {payload : Payload} {header : Header} {chdr : ChannelHeader} {shdr : SignatureHeader}
    {identity : cachedIdentity}
    (hPayload : X.GetPayload env = .ok payload) (hHeader : payload.Header = some header)
    (hChdr : X.UnmarshalChannelHeader header.ChannelHeader = .ok chdr)
    (hShdr : X.GetSignatureHeader header.SignatureHeader = .ok shdr)
    (hIdentity : getIdentity X shdr.Creator = (some identity, none))
    (hTimestamp : chdr.Timestamp = none) :
    ConvertEnvelopeToTXDetail X txFlag env = .panic := by
  unfold ConvertEnvelopeToTXDetail
  simp only [hPayload, hHeader, hChdr, hShdr, hIdentity, hTimestamp]

/-- On success the `Endorsers` list has one entry per endorsement of the first
action, in order; nothing is removed from it. -/
theorem convert_endorsers_one_per_endorsement {X : Externals} {txFlag : Int} {env : Envelope}
    {td : TransactionDetail} {cpp : Option ChaincodeProposalPayload}
    {endorsements : List Endorsement} {chaincodeAction : Option ChaincodeAction}
    (h : ConvertEnvelopeToTXDetail X txFlag env = .ret (some td, none))
    (hParse : parseChaincodeEnvelope X env = .ret (cpp, endorsements, chaincodeAction, none)) :
    td.Transaction.Endorsers = endorsements.map (endorserOf X) := by
  obtain ⟨_, _, _, _, _, _, _, _, es, _, _, _, _, _, _, _, _, _, _, _, _, hP, hLoop, _⟩ :=
    convert_success_trace h
  rw [hParse] at hP
  simp only [Run.ret.injEq, Prod.mk.injEq] at hP
  obtain ⟨_, rfl, _⟩ := hP
  simpa using endorsersLoop_success _ _ _ hLoop

/-- A `SerializedIdentity` that does not decode makes `getIdentity` fail. -/
theorem getIdentity_wrapping_error {X : Externals} {b : Bytes} {err : String}
    (hsid : protoUnmarshal X.decodeSerializedIdentity b = .error err) :
    getIdentity X b = (none, some ("error unmarshal SerializedIdentity: " ++ err)) := by
  unfold getIdentity
  rw [hsid]
  simp [errorsWrap]

/-- On a zero-length input `proto.Unmarshal` yields the zero message. -/
theorem protoUnmarshal_nil {α : Type} [Inhabited α] (decode : Bytes → Except String α) :
    protoUnmarshal decode [] = .ok default := rfl

/-- The `range` loop of `parseChaincodeAction` leaves its variable alone on a
list without matching namespace. -/
theorem foldl_select_no_match (n : String) :
    ∀ (l : List NsReadWriteSet) (acc : Bytes), (∀ x ∈ l, x.Namespace ≠ n) →
      l.foldl (fun kvRwSetByte rwset =>
        if rwset.Namespace = n then rwset.Rwset else kvRwSetByte) acc = acc := by
  intro l
  induction l with
  | nil => intro acc _; rfl
  | cons x rest ih =>
    intro acc h
    have hx : x.Namespace ≠ n := h x (List.mem_cons_self _ _)
    have hrest : ∀ y ∈ rest, y.Namespace ≠ n := fun y hy => h y (List.mem_cons_of_mem _ hy)
    simp only [List.foldl_cons, if_neg hx]
    exact ih acc hrest

/-- The `range` loop of `parseChaincodeAction` ends with the bytes of the last
matching entry. -/
theorem foldl_select_last_match (n : String) (pre post : List NsReadWriteSet)
    (entry : NsReadWriteSet) (acc : Bytes) (hentry : entry.Namespace = n)
    (hpost : ∀ x ∈ post, x.Namespace ≠ n) :
    (pre ++ entry :: post).foldl (fun kvRwSetByte rwset =>
      if rwset.Namespace = n then rwset.Rwset else kvRwSetByte) acc = entry.Rwset := by
  rw [List.foldl_append, List.foldl_cons, if_pos hentry]
  exact foldl_select_no_match n post _ hpost

/-- The channel header that a successful run decoded is the one any decoding
of the same envelope yields. -/
theorem convert_success_header {X : Externals} {txFlag : Int} {env : Envelope}
    {td : TransactionDetail} {payload : Payload} {header : Header} {chdr : ChannelHeader}
    (h : ConvertEnvelopeToTXDetail X txFlag env = .ret (some td, none))
    (hPayload : X.GetPayload env = .ok payload) (hHeader : payload.Header = some header)
    (hChdr : X.UnmarshalChannelHeader header.ChannelHeader = .ok chdr) :
    td.Transaction.ChannelName = "" ∧
    td.Transaction.ID = chdr.TxId ∧
    td.Transaction.Type_ = GoMap.index X.HeaderType_name chdr.Type_ ∧
    td.Transaction.ValidationResult = GoMap.index X.TxValidationCode_name txFlag ∧
    ∃ timestamp, chdr.Timestamp = some timestamp ∧
      td.Transaction.CreatedAt = timeUnix timestamp.Seconds timestamp.Nanos := by
  obtain ⟨_, payload1, header1, chdr1, _, _, timestamp, _, _, _, _, _, _, _, _, hP, hH, hC, _,
    _, hT, _, _, h1, h2, h3, h4, h5, _⟩ := convert_success_trace h
  rw [hPayload] at hP
  simp only [Except.ok.injEq] at hP
  subst hP
  rw [hHeader] at hH
  simp only [Option.some.injEq] at hH
  subst hH
  rw [hChdr] at hC
  simp only [Except.ok.injEq] at hC
  subst hC
  exact ⟨h1, h2, h3, h4, timestamp, hT, h5⟩

/-- The index expression on a map without the key yields the empty string. -/
theorem GoMap.index_absent (m : GoMap Int String) (k : Int) (h : List.lookup k m = none) :
    GoMap.index m k = "" := by
  unfold GoMap.index
  rw [h]

/-- The endorser loop does not consult the two enumeration tables. -/
theorem endorsersLoop_tables (X : Externals) (t1 t2 : GoMap Int String)
    (m : GoMap String Bool) :
    ∀ (es : List Endorsement) (acc : List Endorser),
      endorsersLoop { X with HeaderType_name := t1, TxValidationCode_name := t2 } m es acc
        = endorsersLoop X m es acc := by
  intro es
  induction es with
  | nil => intro acc; rfl
  | cons e rest ih =>
    intro acc
    unfold endorsersLoop
    have hid : getIdentity { X with HeaderType_name := t1, TxValidationCode_name := t2 }
        e.Endorser = getIdentity X e.Endorser := rfl
    rw [hid]
    rcases getIdentity X e.Endorser with ⟨_ | identity, _ | err⟩
    · rfl
    · rfl
    · simp only [ih]
    · rfl

/-- A conversion that succeeds also succeeds for any other validation code and
any other contents of the two enumeration tables: no lookup makes it fail. -/
theorem convert_success_any_tables {X : Externals} {txFlag : Int} {env : Envelope}
    {td : TransactionDetail}
    (h : ConvertEnvelopeToTXDetail X txFlag env = .ret (some td, none))
    (t1 t2 : GoMap Int String) (txFlag2 : Int) :
    ∃ td2, ConvertEnvelopeToTXDetail
      { X with HeaderType_name := t1, TxValidationCode_name := t2 } txFlag2 env
        = .ret (some td2, none) := by
  obtain ⟨_, payload, header, chdr, shdr, identity, timestamp, proposalPayload, endorsements,
    chaincodeAction, hdrExt, cis, reads, writes, rendered, hPayload, hHeader, hChdr, hShdr,
    hIdentity, hTimestamp, hParse, hLoop, _, _, _, _, _, hHdrExt, hCis, hAction, hJSON, _⟩ :=
    convert_success_trace h
  have hIdentity2 : getIdentity { X with HeaderType_name := t1, TxValidationCode_name := t2 }
      shdr.Creator = (some identity, none) := hIdentity
  have hParse2 : parseChaincodeEnvelope
      { X with HeaderType_name := t1, TxValidationCode_name := t2 } env
        = .ret (some proposalPayload, endorsements, chaincodeAction, none) := hParse
  have hLoop2 : endorsersLoop { X with HeaderType_name := t1, TxValidationCode_name := t2 } []
      endorsements (default : Transaction).Endorsers
        = .ret (td.Transaction.Endorsers, none) := by
    rw [endorsersLoop_tables]
    exact hLoop
  have hAction2 : parseChaincodeAction
      { X with HeaderType_name := t1, TxValidationCode_name := t2 } chaincodeAction
      (match hdrExt.ChaincodeId with
        | some chaincodeId => chaincodeId.Name
        | none => (default : Transaction).ChaincodeName) = (reads, writes, none) := hAction
  have hJSON2 : DeepMarshalJSON { X with HeaderType_name := t1, TxValidationCode_name := t2 } env
      = .ok rendered := hJSON
  unfold ConvertEnvelopeToTXDetail
  simp only [hPayload, hHeader, hChdr, hShdr, hIdentity2, hTimestamp, hHdrExt, hParse2, hLoop2,
    hCis, hAction2, hJSON2]
  exact ⟨_, rfl⟩

/-- When `getIdentity` reports an error it returns no identity. -/
theorem getIdentity_error_nil {X : Externals} {b : Bytes} {err : String}
    (h : (getIdentity X b).2 = some err) : getIdentity X b = (none, some err) := by
  unfold getIdentity at h ⊢
  split
  · rename_i e he
    simp only [he] at h
    rw [h]
  · rename_i sid hsid
    simp only [hsid] at h
    split
    · rename_i c e hd
      simp only [hd] at h
      rw [h]
    · rename_i c hd
      simp only [hd] at h
      simp at h

/-- The endorser loop returns the `getIdentity` error of the first endorsement
whose identity does not resolve. -/
theorem endorsersLoop_first_error {X : Externals} {m : GoMap String Bool} (f : Endorsement)
    (post : List Endorsement) (err : String)
    (hf : getIdentity X f.Endorser = (none, some err)) :
    ∀ (pre : List Endorsement) (acc : List Endorser),
      (∀ p ∈ pre, ∃ id, getIdentity X p.Endorser = (some id, none)) →
      ∃ r, endorsersLoop X m (pre ++ f :: post) acc = .ret (r, some err) := by
  intro pre
  induction pre with
  | nil =>
    intro acc _
    refine ⟨acc, ?_⟩
    simp only [List.nil_append]
    unfold endorsersLoop
    simp only [hf]
  | cons p pre ih =>
    intro acc hpre
    obtain ⟨id, hid⟩ := hpre p (List.mem_cons_self _ _)
    have hrest : ∀ q ∈ pre, ∃ id, getIdentity X q.Endorser = (some id, none) :=
      fun q hq => hpre q (List.mem_cons_of_mem _ hq)
    simp only [List.cons_append]
    unfold endorsersLoop
    simp only [hid]
    split
    · exact ih _ hrest
    · exact ih _ hrest

/-- A list with an endorsement that does not resolve has a first such
endorsement. -/
theorem exists_first_unresolved {X : Externals} :
    ∀ (es : List Endorsement) (e : Endorsement) (err : String),
      e ∈ es → (getIdentity X e.Endorser).2 = some err →
      ∃ pre f post err1, es = pre ++ f :: post ∧
        (∀ p ∈ pre, ∃ id, getIdentity X p.Endorser = (some id, none)) ∧
        getIdentity X f.Endorser = (none, some err1) := by
  intro es
  induction es with
  | nil => intro e err he; simp at he
  | cons e1 rest ih =>
    intro e err he herr
    rcases hid : getIdentity X e1.Endorser with ⟨_ | identity, _ | err1⟩
    · exact absurd hid (getIdentity_not_nil_nil X _)
    · exact ⟨[], e1, rest, err1, rfl, by simp, hid⟩
    · have hne : e ≠ e1 := by
        rintro rfl
        rw [hid] at herr
        simp at herr
      have hmem : e ∈ rest := by
        rcases List.mem_cons.mp he with h | h
        · exact absurd h hne
        · exact h
      obtain ⟨pre, f, post, err1, hsplit, hpre, hf⟩ := ih e err hmem herr
      refine ⟨e1 :: pre, f, post, err1, by rw [hsplit]; rfl, ?_, hf⟩
      intro p hp
      rcases List.mem_cons.mp hp with h | h
      · exact ⟨identity, by rw [h]; exact hid⟩
      · exact hpre p h
    · exact ⟨[], e1, rest, err1, rfl, by simp,
        getIdentity_error_nil (by rw [hid])⟩

/-- With the earlier stages passed, the conversion returns the `getIdentity`
error of the first endorsement whose identity does not resolve, unwrapped. -/
theorem convert_first_endorser_error {X : Externals} {txFlag : Int} {env : Envelope}
    {payload : Payload} {header : Header} {chdr : ChannelHeader} {shdr : SignatureHeader}
    {identity : cachedIdentity} {timestamp : Timestamp} {hdrExt : ChaincodeHeaderExtension}
    {cpp : Option ChaincodeProposalPayload} {chaincodeAction : Option ChaincodeAction}
    {pre post : List Endorsement} {f : Endorsement} {err : String}
    (hPayload : X.GetPayload env = .ok payload) (hHeader : payload.Header = some header)
    (hChdr : X.UnmarshalChannelHeader header.ChannelHeader = .ok chdr)
    (hShdr : X.GetSignatureHeader header.SignatureHeader = .ok shdr)
    (hIdentity : getIdentity X shdr.Creator = (some identity, none))
    (hTimestamp : chdr.Timestamp = some timestamp)
    (hHdrExt : X.GetChaincodeHeaderExtension header = .ok hdrExt)
    (hParse : parseChaincodeEnvelope X env
      = .ret (cpp, pre ++ f :: post, chaincodeAction, none))
    (hpre : ∀ p ∈ pre, ∃ id, getIdentity X p.Endorser = (some id, none))
    (hf : getIdentity X f.Endorser = (none, some err)) :
    ConvertEnvelopeToTXDetail X txFlag env = .ret (none, some err) := by
  obtain ⟨r, hLoop⟩ := endorsersLoop_first_error (X := X) (m := []) f post err hf pre
    (default : Transaction).Endorsers hpre
  unfold ConvertEnvelopeToTXDetail
  simp only [hPayload, hHeader, hChdr, hShdr, hIdentity, hTimestamp, hHdrExt, hParse, hLoop]

/-! ## The claims -/

/-- C1, evaluated at the failing input. The three endorsements of sample
envelope 1 resolve to `peer0.org1` of `Org1MSP`, the same signer again, and
`peer0.org2` of `Org2MSP`. The conversion succeeds and the returned `Endorsers`
list has three entries, the first two equal: the repeated signer stays in. -/
theorem C1_repeated_signer_is_kept :
    ([⟨[65], []⟩, ⟨[65], []⟩, ⟨[66], []⟩] : List Endorsement).map (endorserOf sampleX)
      = [⟨"Org1MSP", "peer0.org1.example.com"⟩, ⟨"Org1MSP", "peer0.org1.example.com"⟩,
         ⟨"Org2MSP", "peer0.org2.example.com"⟩] ∧
    parseChaincodeEnvelope sampleX (sampleEnvelope 1)
      = .ret (some ⟨[1, 9]⟩, [⟨[65], []⟩, ⟨[65], []⟩, ⟨[66], []⟩],
          some ⟨[1, 8], [], some sampleChaincodeID⟩, none) ∧
    ∃ td, ConvertEnvelopeToTXDetail sampleX 0 (sampleEnvelope 1) = .ret (some td, none) ∧
      td.Transaction.Endorsers
        = [⟨"Org1MSP", "peer0.org1.example.com"⟩, ⟨"Org1MSP", "peer0.org1.example.com"⟩,
           ⟨"Org2MSP", "peer0.org2.example.com"⟩] ∧
      ¬ td.Transaction.Endorsers.Nodup :=
  ⟨by decide, by decide,
    sampleDetail "tx1" "ENDORSER_TRANSACTION" "VALID" ⟨500000000, 63760694400⟩,
    by decide, by decide, by decide⟩

/-- C2, evaluated at the failing input. The body of sample envelope 2 decodes to
a transaction with zero actions; `parseChaincodeEnvelope` returns nil values
with a nil error, and `ConvertEnvelopeToTXDetail` goes on and panics on the nil
proposal payload instead of returning an error. -/
theorem C2_zero_actions_nil_error :
    sampleX.GetPayload (sampleEnvelope 2) = .ok ⟨some ⟨[2, 1], [2, 2]⟩, [2, 3]⟩ ∧
    sampleX.GetTransaction [2, 3] = .ok ⟨[]⟩ ∧
    parseChaincodeEnvelope sampleX (sampleEnvelope 2) = .ret (none, [], none, none) ∧
    ConvertEnvelopeToTXDetail sampleX 0 (sampleEnvelope 2) = .panic :=
  ⟨rfl, rfl, by decide, by decide⟩

/-- C9, evaluated at the failing input. For sample envelope 5 the payload, the
channel header and the signature header decode and the creator identity
resolves, the channel header has no timestamp, and `ConvertEnvelopeToTXDetail`
panics: it returns neither a record nor an error. -/
theorem C9_missing_timestamp_panics :
    sampleX.GetPayload (sampleEnvelope 5) = .ok ⟨some ⟨[5, 1], [5, 2]⟩, [5, 3]⟩ ∧
    (∃ chdr, sampleX.UnmarshalChannelHeader [5, 1] = .ok chdr ∧ chdr.Timestamp = none) ∧
    sampleX.GetSignatureHeader [5, 2] = .ok ⟨[85], []⟩ ∧
    getIdentity sampleX [85]
      = (some ⟨"Org1MSP", some ⟨⟨"User1@org1.example.com"⟩⟩⟩, none) ∧
    ConvertEnvelopeToTXDetail sampleX 0 (sampleEnvelope 5) = .panic :=
  ⟨rfl, ⟨_, rfl, rfl⟩, rfl, by decide, by decide⟩

/-- C3, counterexample. In sample envelope 3 the second endorsement's identity
blob decodes as a `SerializedIdentity` of `Org3MSP` whose identity bytes hold no
PEM block, and every other stage passes. The conversion does not succeed with
an `Org3MSP` entry of empty name: it returns the certificate error. -/
theorem C3_bad_endorser_certificate_fails :
    parseChaincodeEnvelope sampleX (sampleEnvelope 3)
      = .ret (some ⟨[1, 9]⟩, [⟨[65], []⟩, ⟨[67], []⟩],
          some ⟨[1, 8], [], some sampleChaincodeID⟩, none) ∧
    protoUnmarshal sampleX.decodeSerializedIdentity [67] = .ok ⟨"Org3MSP", [67, 1]⟩ ∧
    decodeX509Pem sampleX [67, 1] = (none, some "error bad Certificate") ∧
    ConvertEnvelopeToTXDetail sampleX 0 (sampleEnvelope 3)
      = .ret (none, some "error decodeX509Pem: error bad Certificate") ∧
    ¬ ∃ td, ConvertEnvelopeToTXDetail sampleX 0 (sampleEnvelope 3) = .ret (some td, none) :=
  ⟨by decide, rfl, by decide, by decide, by
    intro ⟨td, h⟩
    have h2 : ConvertEnvelopeToTXDetail sampleX 0 (sampleEnvelope 3)
        = .ret (none, some "error decodeX509Pem: error bad Certificate") := by decide
    rw [h2] at h
    simp at h⟩

/-- C3, amended. For every envelope whose earlier stages pass, if the identity
of some endorsement of the first action does not resolve, either because its
`SerializedIdentity` does not decode or because it decodes and its certificate
is missing or does not parse, then `ConvertEnvelopeToTXDetail` returns no record
and, unwrapped, the `getIdentity` error of the first endorsement in list order
that does not resolve. When the endorsements before the faulty one resolve,
that is its own error: `error unmarshal SerializedIdentity: cause` for the
wrapping, `error decodeX509Pem: cause` for the certificate. -/
theorem C3_endorser_identity_failure_aborts (X : Externals) (txFlag : Int) (env : Envelope)
    (payload : Payload) (header : Header) (chdr : ChannelHeader) (shdr : SignatureHeader)
    (identity : cachedIdentity) (timestamp : Timestamp) (hdrExt : ChaincodeHeaderExtension)
    (cpp : Option ChaincodeProposalPayload) (endorsements : List Endorsement)
    (chaincodeAction : Option ChaincodeAction) (e : Endorsement)
    (hPayload : X.GetPayload env = .ok payload) (hHeader : payload.Header = some header)
    (hChdr : X.UnmarshalChannelHeader header.ChannelHeader = .ok chdr)
    (hShdr : X.GetSignatureHeader header.SignatureHeader = .ok shdr)
    (hIdentity : getIdentity X shdr.Creator = (some identity, none))
    (hTimestamp : chdr.Timestamp = some timestamp)
    (hHdrExt : X.GetChaincodeHeaderExtension header = .ok hdrExt)
    (hParse : parseChaincodeEnvelope X env = .ret (cpp, endorsements, chaincodeAction, none))
    (hmem : e ∈ endorsements)
    (hfail : (∃ err, protoUnmarshal X.decodeSerializedIdentity e.Endorser = .error err) ∨
      (∃ sid err, protoUnmarshal X.decodeSerializedIdentity e.Endorser = .ok sid ∧
        (decodeX509Pem X sid.IdBytes).2 = some err)) :
    (∃ pre f post err1, endorsements = pre ++ f :: post ∧
      (∀ p ∈ pre, ∃ id, getIdentity X p.Endorser = (some id, none)) ∧
      getIdentity X f.Endorser = (none, some err1) ∧
      ConvertEnvelopeToTXDetail X txFlag env = .ret (none, some err1)) ∧
    (∀ pre post, endorsements = pre ++ e :: post →
      (∀ p ∈ pre, ∃ id, getIdentity X p.Endorser = (some id, none)) →
      (∀ err, protoUnmarshal X.decodeSerializedIdentity e.Endorser = .error err →
        ConvertEnvelopeToTXDetail X txFlag env
          = .ret (none, some ("error unmarshal SerializedIdentity: " ++ err))) ∧
      (∀ sid err, protoUnmarshal X.decodeSerializedIdentity e.Endorser = .ok sid →
        (decodeX509Pem X sid.IdBytes).2 = some err →
        ConvertEnvelopeToTXDetail X txFlag env
          = .ret (none, some ("error decodeX509Pem: " ++ err)))) := by
  have hid : ∃ err, (getIdentity X e.Endorser).2 = some err := by
    rcases hfail with ⟨err, h⟩ | ⟨sid, err, h1, h2⟩
    · exact ⟨_, by rw [getIdentity_wrapping_error h]⟩
    · exact ⟨_, by rw [getIdentity_certificate_error h1 h2]⟩
  obtain ⟨err, hid⟩ := hid
  constructor
  · obtain ⟨pre, f, post, err1, hsplit, hpre, hf⟩ :=
      exists_first_unresolved endorsements e err hmem hid
    refine ⟨pre, f, post, err1, hsplit, hpre, hf, ?_⟩
    rw [hsplit] at hParse
    exact convert_first_endorser_error hPayload hHeader hChdr hShdr hIdentity hTimestamp
      hHdrExt hParse hpre hf
  · intro pre post hsplit hpre
    rw [hsplit] at hParse
    constructor
    · intro err1 h1
      exact convert_first_endorser_error hPayload hHeader hChdr hShdr hIdentity hTimestamp
        hHdrExt hParse hpre (getIdentity_wrapping_error h1)
    · intro sid err1 h1 h2
      exact convert_first_endorser_error hPayload hHeader hChdr hShdr hIdentity hTimestamp
        hHdrExt hParse hpre (getIdentity_certificate_error h1 h2)

/-- C3, the amended statement at sample envelope 3: the first endorsement
resolves, the second has no PEM block, and the conversion returns the second
endorser's `getIdentity` error. -/
theorem C3_endorser_identity_failure_aborts_witness :
    (⟨[67], []⟩ : Endorsement) ∈ ([⟨[65], []⟩, ⟨[67], []⟩] : List Endorsement) ∧
    getIdentity sampleX [65]
      = (some ⟨"Org1MSP", some ⟨⟨"peer0.org1.example.com"⟩⟩⟩, none) ∧
    protoUnmarshal sampleX.decodeSerializedIdentity [67] = .ok ⟨"Org3MSP", [67, 1]⟩ ∧
    (decodeX509Pem sampleX [67, 1]).2 = some "error bad Certificate" ∧
    getIdentity sampleX [67] = (none, some "error decodeX509Pem: error bad Certificate") ∧
    ConvertEnvelopeToTXDetail sampleX 0 (sampleEnvelope 3)
      = .ret (none, some "error decodeX509Pem: error bad Certificate") :=
  ⟨by decide, by decide, rfl, by decide, by decide,
    ((C3_endorser_identity_failure_aborts sampleX 0 (sampleEnvelope 3)
      ⟨some ⟨[3, 1], [3, 2]⟩, [3, 3]⟩ ⟨[3, 1], [3, 2]⟩
      ⟨3, 0, some ⟨1625097600, 500000000⟩, "mychannel", "tx1", 0, [3, 4]⟩ ⟨[85], []⟩
      ⟨"Org1MSP", some ⟨⟨"User1@org1.example.com"⟩⟩⟩ ⟨1625097600, 500000000⟩
      ⟨some sampleChaincodeID⟩ (some ⟨[1, 9]⟩) [⟨[65], []⟩, ⟨[67], []⟩]
      (some ⟨[1, 8], [], some sampleChaincodeID⟩) ⟨[67], []⟩
      rfl rfl rfl rfl (by decide) rfl rfl (by decide) (by decide)
      (Or.inr ⟨⟨"Org3MSP", [67, 1]⟩, "error bad Certificate", rfl, by decide⟩)).2
      [⟨[65], []⟩] [] rfl
      (fun p hp => ⟨⟨"Org1MSP", some ⟨⟨"peer0.org1.example.com"⟩⟩⟩, by
        rw [List.mem_singleton.mp hp]
        decide⟩)).2
      ⟨"Org3MSP", [67, 1]⟩ "error bad Certificate" rfl (by decide)⟩

/-- C4, counterexample. The validation code `999` is no key of the validation
table; the conversion of sample envelope 1 with this code succeeds, and the
`ValidationResult` label is the empty string, not `unknown`. -/
theorem C4_absent_code_succeeds_with_empty_label :
    List.lookup 999 sampleX.TxValidationCode_name = none ∧
    ∃ td, ConvertEnvelopeToTXDetail sampleX 999 (sampleEnvelope 1) = .ret (some td, none) ∧
      td.Transaction.ValidationResult = "" ∧ td.Transaction.ValidationResult ≠ "unknown" :=
  ⟨by decide,
    sampleDetail "tx1" "ENDORSER_TRANSACTION" "" ⟨500000000, 63760694400⟩,
    by decide, by decide, by decide⟩

/-- C4, amended. A validation code never makes `ConvertEnvelopeToTXDetail`
fail (a conversion that succeeds also succeeds for every other validation code
and every other validation table), and whenever the conversion succeeds with
a validation code that is no key of the validation table, `ValidationResult`
is the empty string. For a channel-header type code that is no key of the type
table, the table naming the payload types the renderer decodes, the conversion
never succeeds, so no `Type` label is produced for it. -/
theorem C4_absent_code_behaviour (X : Externals) (txFlag : Int) (env : Envelope)
    (payload : Payload) (header : Header) (chdr : ChannelHeader)
    (hPayload : X.GetPayload env = .ok payload) (hHeader : payload.Header = some header)
    (hChdr : X.UnmarshalChannelHeader header.ChannelHeader = .ok chdr) :
    (∀ td, ConvertEnvelopeToTXDetail X txFlag env = .ret (some td, none) →
      (List.lookup txFlag X.TxValidationCode_name = none →
        td.Transaction.ValidationResult = "") ∧
      (∀ (t2 : GoMap Int String) (txFlag2 : Int),
        ∃ td2, ConvertEnvelopeToTXDetail { X with TxValidationCode_name := t2 } txFlag2 env
          = .ret (some td2, none))) ∧
    ((∀ k ∈ protolatorPayloadTypes, List.lookup k X.HeaderType_name ≠ none) →
      List.lookup chdr.Type_ X.HeaderType_name = none →
      ∀ td e, ConvertEnvelopeToTXDetail X txFlag env ≠ .ret (some td, e)) := by
  constructor
  · intro td h
    obtain ⟨_, _, _, hValidation, _⟩ := convert_success_header h hPayload hHeader hChdr
    constructor
    · intro hk
      rw [hValidation, GoMap.index_absent _ _ hk]
    · intro t2 txFlag2
      exact convert_success_any_tables h X.HeaderType_name t2 txFlag2
  · intro hTable hk td e h
    obtain ⟨_, payload1, header1, chdr1, _, _, _, _, _, _, _, _, _, _, rendered, hP, hH, hC, _,
      _, _, _, _, _, _, _, _, _, _, _, _, hJSON, _⟩ := convert_success_trace h
    rw [hPayload] at hP
    simp only [Except.ok.injEq] at hP
    subst hP
    rw [hHeader] at hH
    simp only [Option.some.injEq] at hH
    subst hH
    rw [hChdr] at hC
    simp only [Except.ok.injEq] at hC
    subst hC
    exact hTable _ (DeepMarshalJSON_ok hJSON hPayload hHeader hChdr).1 hk

/-- C4, the amended statement at sample envelope 1 with validation code `999`
and at sample envelope 8, whose type code is `42`. -/
theorem C4_absent_code_behaviour_witness :
    ConvertEnvelopeToTXDetail sampleX 999 (sampleEnvelope 1)
      = .ret (some (sampleDetail "tx1" "ENDORSER_TRANSACTION" ""
          ⟨500000000, 63760694400⟩), none) ∧
    List.lookup 999 sampleX.TxValidationCode_name = none ∧
    (sampleDetail "tx1" "ENDORSER_TRANSACTION" ""
      ⟨500000000, 63760694400⟩).Transaction.ValidationResult = "" ∧
    List.lookup 42 sampleX.HeaderType_name = none ∧
    (∀ k ∈ protolatorPayloadTypes, List.lookup k sampleX.HeaderType_name ≠ none) ∧
    (∃ err, ConvertEnvelopeToTXDetail sampleX 0 (sampleEnvelope 8) = .ret (none, some err)) ∧
    ∀ td e, ConvertEnvelopeToTXDetail sampleX 0 (sampleEnvelope 8) ≠ .ret (some td, e) :=
  ⟨by decide, by decide,
    ((C4_absent_code_behaviour sampleX 999 (sampleEnvelope 1)
      ⟨some ⟨[1, 1], [1, 2]⟩, [1, 3]⟩ ⟨[1, 1], [1, 2]⟩
      ⟨3, 0, some ⟨1625097600, 500000000⟩, "mychannel", "tx1", 0, [1, 4]⟩
      rfl rfl rfl).1
      (sampleDetail "tx1" "ENDORSER_TRANSACTION" "" ⟨500000000, 63760694400⟩)
      (by decide)).1 (by decide),
    by decide, by decide, ⟨_, rfl⟩,
    (C4_absent_code_behaviour sampleX 0 (sampleEnvelope 8)
      ⟨some ⟨[8, 1], [8, 2]⟩, [8, 3]⟩ ⟨[8, 1], [8, 2]⟩
      ⟨42, 0, some ⟨1625097600, 500000000⟩, "mychannel", "tx1", 0, [8, 4]⟩
      rfl rfl rfl).2 (by decide) (by decide)⟩

/-- C7, counterexample. The channel header of sample envelope 4 carries an empty
transaction id; the conversion succeeds and the returned `ID` is empty. -/
theorem C7_empty_id_on_success :
    (∃ chdr, sampleX.UnmarshalChannelHeader [4, 1] = .ok chdr ∧ chdr.TxId = "") ∧
    ∃ td, ConvertEnvelopeToTXDetail sampleX 0 (sampleEnvelope 4) = .ret (some td, none) ∧
      td.Transaction.ID = "" :=
  ⟨⟨_, rfl, rfl⟩,
    sampleDetail "" "ENDORSER_TRANSACTION" "VALID" ⟨500000000, 63760694400⟩,
    by decide, by decide⟩

/-- C7, amended. Whenever `ConvertEnvelopeToTXDetail` succeeds, the returned
`ID` is the transaction id of the decoded channel header, verbatim. -/
theorem C7_id_is_header_txid (X : Externals) (txFlag : Int) (env : Envelope)
    (td : TransactionDetail) (payload : Payload) (header : Header) (chdr : ChannelHeader)
    (h : ConvertEnvelopeToTXDetail X txFlag env = .ret (some td, none))
    (hPayload : X.GetPayload env = .ok payload) (hHeader : payload.Header = some header)
    (hChdr : X.UnmarshalChannelHeader header.ChannelHeader = .ok chdr) :
    td.Transaction.ID = chdr.TxId :=
  (convert_success_header h hPayload hHeader hChdr).2.1

/-- C7, the amended statement at sample envelope 1. -/
theorem C7_id_is_header_txid_witness :
    ConvertEnvelopeToTXDetail sampleX 0 (sampleEnvelope 1)
      = .ret (some (sampleDetail "tx1" "ENDORSER_TRANSACTION" "VALID"
          ⟨500000000, 63760694400⟩), none) ∧
    (sampleDetail "tx1" "ENDORSER_TRANSACTION" "VALID"
      ⟨500000000, 63760694400⟩).Transaction.ID = "tx1" :=
  ⟨by decide,
    C7_id_is_header_txid sampleX 0 (sampleEnvelope 1)
      (sampleDetail "tx1" "ENDORSER_TRANSACTION" "VALID" ⟨500000000, 63760694400⟩)
      ⟨some ⟨[1, 1], [1, 2]⟩, [1, 3]⟩ ⟨[1, 1], [1, 2]⟩
      ⟨3, 0, some ⟨1625097600, 500000000⟩, "mychannel", "tx1", 0, [1, 4]⟩
      (by decide) rfl rfl rfl⟩

/-- C8, counterexample. The channel header of sample envelope 1 names the
channel `mychannel`; the conversion succeeds and the returned `ChannelName` is
the empty string. -/
theorem C8_channel_name_left_empty :
    ∃ chdr td, sampleX.UnmarshalChannelHeader [1, 1] = .ok chdr ∧
      chdr.ChannelId = "mychannel" ∧
      ConvertEnvelopeToTXDetail sampleX 0 (sampleEnvelope 1) = .ret (some td, none) ∧
      td.Transaction.ChannelName = "" ∧
      td.Transaction.ChannelName ≠ chdr.ChannelId :=
  ⟨_, sampleDetail "tx1" "ENDORSER_TRANSACTION" "VALID" ⟨500000000, 63760694400⟩,
    rfl, rfl, by decide, by decide, by decide⟩

/-- C8, amended. Whenever `ConvertEnvelopeToTXDetail` succeeds, the returned
`ChannelName` is the empty string, whatever channel the header names. -/
theorem C8_channel_name_is_empty (X : Externals) (txFlag : Int) (env : Envelope)
    (td : TransactionDetail)
    (h : ConvertEnvelopeToTXDetail X txFlag env = .ret (some td, none)) :
    td.Transaction.ChannelName = "" := by
  obtain ⟨_, _, _, _, _, _, _, _, _, _, _, _, _, _, _, _, _, _, _, _, _, _, _, hName, _⟩ :=
    convert_success_trace h
  exact hName

/-- C8, the amended statement at sample envelope 1. -/
theorem C8_channel_name_is_empty_witness :
    ConvertEnvelopeToTXDetail sampleX 0 (sampleEnvelope 1)
      = .ret (some (sampleDetail "tx1" "ENDORSER_TRANSACTION" "VALID"
          ⟨500000000, 63760694400⟩), none) ∧
    (sampleDetail "tx1" "ENDORSER_TRANSACTION" "VALID"
      ⟨500000000, 63760694400⟩).Transaction.ChannelName = "" :=
  ⟨by decide,
    C8_channel_name_is_empty sampleX 0 (sampleEnvelope 1)
      (sampleDetail "tx1" "ENDORSER_TRANSACTION" "VALID" ⟨500000000, 63760694400⟩)
      (by decide)⟩

/-- C10, counterexample. The channel header of sample envelope 6 carries the
timestamp seconds `2^63 - 1` and nanos `0`. The rendering accepts it and the
conversion succeeds; the seconds since year 1 that `time.Unix` stores do not
fit an `int64` and wrap, so `CreatedAt` lies `2^63 + 1` seconds before the
epoch and `CreatedAt.Before(time.Unix(0, 0))` holds, although the header's
instant is `2^63 - 1` seconds after the epoch. -/
theorem C10_stored_seconds_wrap :
    (∃ chdr, sampleX.UnmarshalChannelHeader [6, 1] = .ok chdr ∧
      chdr.Timestamp = some ⟨9223372036854775807, 0⟩) ∧
    DeepMarshalJSON sampleX (sampleEnvelope 6) = .ok "envelope-tree" ∧
    ∃ td, ConvertEnvelopeToTXDetail sampleX 0 (sampleEnvelope 6) = .ret (some td, none) ∧
      td.Transaction.CreatedAt = ⟨0, -9223371974719179009⟩ ∧
      td.Transaction.CreatedAt.sinceEpochNanos = -9223372036854775809 * 1000000000 ∧
      td.Transaction.CreatedAt.sinceEpochNanos ≠ 9223372036854775807 * 1000000000 + 0 ∧
      td.Transaction.CreatedAt.Before (timeUnix 0 0) = true :=
  ⟨⟨_, rfl, rfl⟩, rfl,
    sampleDetail "tx1" "ENDORSER_TRANSACTION" "VALID" ⟨0, -9223371974719179009⟩,
    by decide, by decide, by decide, by decide, by decide⟩

/-- C10, amended. Whenever `ConvertEnvelopeToTXDetail` succeeds, `CreatedAt` is
`time.Unix` of the channel header's `Seconds` and `Nanos` and of nothing else,
`Nanos` lies in `[0, 10^9)`, `CreatedAt.Unix()` is `Seconds` and
`CreatedAt.Nanosecond()` is `Nanos`; and when `Seconds + 62135596800`, the
seconds since year 1 that a `Time` stores, fits an `int64`, `CreatedAt` is the
instant exactly `Seconds` seconds plus `Nanos` nanoseconds after the Unix
epoch. -/
theorem C10_createdAt_is_header_instant (X : Externals) (txFlag : Int) (env : Envelope)
    (td : TransactionDetail) (payload : Payload) (header : Header) (chdr : ChannelHeader)
    (timestamp : Timestamp)
    (h : ConvertEnvelopeToTXDetail X txFlag env = .ret (some td, none))
    (hPayload : X.GetPayload env = .ok payload) (hHeader : payload.Header = some header)
    (hChdr : X.UnmarshalChannelHeader header.ChannelHeader = .ok chdr)
    (hTimestamp : chdr.Timestamp = some timestamp)
    (hSeconds : -2 ^ 63 ≤ timestamp.Seconds ∧ timestamp.Seconds < 2 ^ 63) :
    td.Transaction.CreatedAt = timeUnix timestamp.Seconds timestamp.Nanos ∧
    (0 ≤ timestamp.Nanos ∧ timestamp.Nanos < 1000000000) ∧
    td.Transaction.CreatedAt.Unix = timestamp.Seconds ∧
    td.Transaction.CreatedAt.Nanosecond = timestamp.Nanos ∧
    (timestamp.Seconds + 62135596800 < 2 ^ 63 →
      td.Transaction.CreatedAt.sinceEpochNanos
        = timestamp.Seconds * 1000000000 + timestamp.Nanos) := by
  obtain ⟨_, _, _, _, ts, hT, hCreated⟩ := convert_success_header h hPayload hHeader hChdr
  rw [hTimestamp] at hT
  simp only [Option.some.injEq] at hT
  subst hT
  obtain ⟨_, payload1, header1, chdr1, _, _, _, _, _, _, _, _, _, _, rendered, hP, hH, hC, _,
    _, _, _, _, _, _, _, _, _, _, _, _, hJSON, _⟩ := convert_success_trace h
  rw [hPayload] at hP
  simp only [Except.ok.injEq] at hP
  subst hP
  rw [hHeader] at hH
  simp only [Option.some.injEq] at hH
  subst hH
  rw [hChdr] at hC
  simp only [Except.ok.injEq] at hC
  subst hC
  obtain ⟨h0, h1⟩ := (DeepMarshalJSON_ok hJSON hPayload hHeader hChdr).2 _ hTimestamp
  obtain ⟨_, _, hUnix, hNano⟩ := unixTime_fields timestamp.Seconds timestamp.Nanos h0 h1
  refine ⟨hCreated, ⟨h0, h1⟩, ?_, ?_, ?_⟩
  · rw [hCreated, timeUnix_in_range _ _ h0 h1, hUnix,
      wrapInt64_of_range _ hSeconds.1 hSeconds.2]
  · rw [hCreated, timeUnix_in_range _ _ h0 h1, hNano]
  · intro hFit
    rw [hCreated]
    exact timeUnix_sinceEpochNanos _ _ h0 h1 hSeconds.1 hFit

/-- C10, the amended statement at sample envelope 1, whose header carries
seconds `1625097600` and nanos `500000000`: the instant is `1625097600.5` s
after the epoch. -/
theorem C10_createdAt_is_header_instant_witness :
    ConvertEnvelopeToTXDetail sampleX 0 (sampleEnvelope 1)
      = .ret (some (sampleDetail "tx1" "ENDORSER_TRANSACTION" "VALID"
          ⟨500000000, 63760694400⟩), none) ∧
    (sampleDetail "tx1" "ENDORSER_TRANSACTION" "VALID"
      ⟨500000000, 63760694400⟩).Transaction.CreatedAt.sinceEpochNanos
      = 1625097600 * 1000000000 + 500000000 :=
  ⟨by decide,
    (C10_createdAt_is_header_instant sampleX 0 (sampleEnvelope 1)
      (sampleDetail "tx1" "ENDORSER_TRANSACTION" "VALID" ⟨500000000, 63760694400⟩)
      ⟨some ⟨[1, 1], [1, 2]⟩, [1, 3]⟩ ⟨[1, 1], [1, 2]⟩
      ⟨3, 0, some ⟨1625097600, 500000000⟩, "mychannel", "tx1", 0, [1, 4]⟩
      ⟨1625097600, 500000000⟩
      (by decide) rfl rfl rfl rfl (by decide)).2.2.2.2 (by decide)⟩

/-- C5. For every chaincode action whose result bytes decode to a list of
per-namespace read/write sets and every chaincode name, `parseChaincodeAction`
returns what the `Rwset` bytes of the last entry with exactly that namespace
decode to (the reads and writes with a nil error, or the decoding error); when
no entry has that namespace it returns empty reads, empty writes and a nil
error. -/
theorem C5_last_matching_namespace (X : Externals) (action : ChaincodeAction)
    (chaincodename : String) (txRWSet : TxReadWriteSet)
    (hResults : protoUnmarshal X.decodeTxReadWriteSet action.Results = .ok txRWSet) :
    (∀ (pre post : List NsReadWriteSet) (entry : NsReadWriteSet),
      txRWSet.NsRwset = pre ++ entry :: post →
      entry.Namespace = chaincodename →
      (∀ x ∈ post, x.Namespace ≠ chaincodename) →
      parseChaincodeAction X (some action) chaincodename =
        match protoUnmarshal X.decodeKVRWSet entry.Rwset with
        | .ok kvRWSet => (kvRWSet.Reads, kvRWSet.Writes, none)
        | .error err => ([], [], some ("unexpected error from unmarshal KVRWSet: " ++ err))) ∧
    ((∀ x ∈ txRWSet.NsRwset, x.Namespace ≠ chaincodename) →
      parseChaincodeAction X (some action) chaincodename = ([], [], none)) := by
  constructor
  · intro pre post entry hsplit hentry hpost
    unfold parseChaincodeAction
    simp only [hResults, hsplit, foldl_select_last_match chaincodename pre post entry []
      hentry hpost]
    split <;> simp_all [errorsWrap]
  · intro hnone
    unfold parseChaincodeAction
    simp only [hResults, foldl_select_no_match chaincodename _ [] hnone, protoUnmarshal_nil]
    rfl

/-- C5 at the sample action, whose results hold the namespaces `_lifecycle` and
`basic`: for `basic` the reads and writes of the second entry are returned, for
a name that matches no entry the result is empty. -/
theorem C5_last_matching_namespace_witness :
    protoUnmarshal sampleX.decodeTxReadWriteSet [1, 8]
      = .ok ⟨[⟨"_lifecycle", [1, 10]⟩, ⟨"basic", [1, 11]⟩]⟩ ∧
    parseChaincodeAction sampleX (some ⟨[1, 8], [], some sampleChaincodeID⟩) "basic"
      = ([⟨"k", 2, 0⟩], [⟨"k", false, [118]⟩], none) ∧
    parseChaincodeAction sampleX (some ⟨[1, 8], [], some sampleChaincodeID⟩) "other"
      = ([], [], none) :=
  ⟨rfl,
    (C5_last_matching_namespace sampleX ⟨[1, 8], [], some sampleChaincodeID⟩ "basic"
      ⟨[⟨"_lifecycle", [1, 10]⟩, ⟨"basic", [1, 11]⟩]⟩ rfl).1
      [⟨"_lifecycle", [1, 10]⟩] [] ⟨"basic", [1, 11]⟩ rfl rfl (by simp),
    (C5_last_matching_namespace sampleX ⟨[1, 8], [], some sampleChaincodeID⟩ "other"
      ⟨[⟨"_lifecycle", [1, 10]⟩, ⟨"basic", [1, 11]⟩]⟩ rfl).2 (by decide)⟩

/-- C6. For any two envelopes whose payloads and transaction bodies decode and
whose transactions have the same first action, whatever actions follow it,
`parseChaincodeEnvelope` returns the same proposal payload, endorsement list,
chaincode action and error. -/
theorem C6_only_first_action_is_decoded (X : Externals) (env1 env2 : Envelope)
    (payl1 payl2 : Payload) (tx1 tx2 : PeerTransaction) (action0 : TransactionAction)
    (rest1 rest2 : List TransactionAction)
    (hPayload1 : X.GetPayload env1 = .ok payl1) (hPayload2 : X.GetPayload env2 = .ok payl2)
    (hTx1 : X.GetTransaction payl1.Data = .ok tx1)
    (hTx2 : X.GetTransaction payl2.Data = .ok tx2)
    (hActions1 : tx1.Actions = action0 :: rest1)
    (hActions2 : tx2.Actions = action0 :: rest2) :
    parseChaincodeEnvelope X env1 = parseChaincodeEnvelope X env2 := by
  unfold parseChaincodeEnvelope
  simp only [hPayload1, hPayload2, hTx1, hTx2, hActions1, hActions2]

/-- C6 at sample envelopes 1 and 7: the second has a further action with an
undecodable payload, and `parseChaincodeEnvelope` returns the same for both. -/
theorem C6_only_first_action_is_decoded_witness :
    sampleX.GetTransaction [1, 3] = .ok ⟨[⟨[], [1, 5]⟩]⟩ ∧
    sampleX.GetTransaction [7, 3] = .ok ⟨[⟨[], [1, 5]⟩, ⟨[], [9, 9]⟩]⟩ ∧
    (∃ err, sampleX.GetPayloads ⟨[], [9, 9]⟩ = .error err) ∧
    parseChaincodeEnvelope sampleX (sampleEnvelope 1)
      = parseChaincodeEnvelope sampleX (sampleEnvelope 7) :=
  ⟨rfl, rfl, ⟨_, rfl⟩,
    C6_only_first_action_is_decoded sampleX (sampleEnvelope 1) (sampleEnvelope 7)
      ⟨some ⟨[1, 1], [1, 2]⟩, [1, 3]⟩ ⟨some ⟨[7, 1], [7, 2]⟩, [7, 3]⟩
      ⟨[⟨[], [1, 5]⟩]⟩ ⟨[⟨[], [1, 5]⟩, ⟨[], [9, 9]⟩]⟩ ⟨[], [1, 5]⟩ [] [⟨[], [9, 9]⟩]
      rfl rfl rfl rfl rfl rfl⟩

end Exporter
